import Mathlib

/-!
Shallow embedding of the RSVP lookup/submit workflow of the zahiandsophie
wedding-website repository.

Server side (netlify functions):
* `searchGuest`, `fetchPartyMembers`, `fetchExistingRsvp`, lookup handler
  (`lookupGuest`) — from the lookup-guest function;
* `buildRecords`, `commitRsvp`, `submitHandler` — from the submit-rsvp
  function.

Client side (site script): `handleFindInvitation`, `handleDetailsSubmit`,
`submitDecline`, `handleFinalSubmit`.

External effects (Airtable HTTP round trips) are made explicit: the Guests
table is a list of `GuestRecord`, the RSVPs table a list of `RsvpFields`,
and each network call's success/failure is a parameter.
-/

namespace ZahiAndSophie

/-- Raw fields of a row of the Airtable `Guests` table.  Blank text fields
are the empty string and unchecked checkboxes are `false`, matching both
Airtable formula semantics and the JS normalisations (`|| ''`, `|| false`). -/
structure GuestFields where
  firstName : String
  lastName : String
  email : String
  partyName : String
  plusOneAllowed : Bool
  hasResponded : Bool
  adultKid : String
deriving Repr, DecidableEq

/-- A row of the `Guests` table: Airtable record id plus its fields. -/
structure GuestRecord where
  id : String
  fields : GuestFields
deriving Repr, DecidableEq

/-- The guest object returned by `searchGuest` in lookup-guest:
`{id, firstName, lastName, email, partyName, plusOneAllowed, hasResponded,
isAdult}`. -/
structure Guest where
  id : String
  firstName : String
  lastName : String
  email : String
  partyName : String
  plusOneAllowed : Bool
  hasResponded : Bool
  isAdult : Bool
deriving Repr, DecidableEq

/-- The member objects returned by `fetchPartyMembers` (same as `Guest`
but without the `plusOneAllowed` field, which that mapping omits). -/
structure Member where
  id : String
  firstName : String
  lastName : String
  email : String
  partyName : String
  hasResponded : Bool
  isAdult : Bool
deriving Repr, DecidableEq

/-- Mapping of a raw guest record performed by `searchGuest`:
`isAdult` is `record.fields['Adult/Kid'] !== 'Kid'`. -/
def mkGuest (r : GuestRecord) : Guest :=
  { id := r.id
    firstName := r.fields.firstName
    lastName := r.fields.lastName
    email := r.fields.email
    partyName := r.fields.partyName
    plusOneAllowed := r.fields.plusOneAllowed
    hasResponded := r.fields.hasResponded
    isAdult := !(r.fields.adultKid == "Kid") }

/-- Mapping of a raw guest record performed by `fetchPartyMembers`. -/
def mkMember (r : GuestRecord) : Member :=
  { id := r.id
    firstName := r.fields.firstName
    lastName := r.fields.lastName
    email := r.fields.email
    partyName := r.fields.partyName
    hasResponded := r.fields.hasResponded
    isAdult := !(r.fields.adultKid == "Kid") }

/-- Forgetting the `plusOneAllowed` field (`members = [guest]` in the
lookup handler passes the `searchGuest` object where members are expected). -/
def Guest.toMember (g : Guest) : Member :=
  { id := g.id
    firstName := g.firstName
    lastName := g.lastName
    email := g.email
    partyName := g.partyName
    hasResponded := g.hasResponded
    isAdult := g.isAdult }

/-- Character-wise lowercasing, modelling Airtable's `LOWER`. -/
def strLower (s : String) : String := ⟨s.toList.map Char.toLower⟩

/-- `searchGuest`: Airtable query
`AND(LOWER({First Name}) = LOWER(fn), LOWER({Last Name}) = LOWER(ln))`,
returning the first matching record (`data.records[0]`) or null. -/
def searchGuest (db : List GuestRecord) (firstName lastName : String) :
    Option Guest :=
  match db.find? (fun r =>
      strLower r.fields.firstName == strLower firstName &&
      strLower r.fields.lastName == strLower lastName) with
  | none => none
  | some r => some (mkGuest r)

/-- `fetchPartyMembers`: Airtable query `{Party Name} = "partyName"`,
mapping every matching record. -/
def fetchPartyMembers (db : List GuestRecord) (partyName : String) :
    List Member :=
  (db.filter (fun r => r.fields.partyName == partyName)).map mkMember

/-- The member-resolution step of the lookup handler:
`members = [guest]`, replaced by `fetchPartyMembers` when
`guest.partyName` is truthy (non-empty). -/
def lookupMembers (db : List GuestRecord) (g : Guest) : List Member :=
  if g.partyName ≠ "" then fetchPartyMembers db g.partyName
  else [g.toMember]

/-- Fields of a row of the Airtable `RSVPs` table.  The submit handler
assembles these as JS object literals in which some keys are set only
conditionally, so optional keys are `Option`s (`none` = key absent);
`guestIds` is the `Guest` linked-record array (`[]` = absent). -/
structure RsvpFields where
  guestIds : List String := []
  guestName : String := ""
  attending : Option Bool := none
  welcomeParty : Option Bool := none
  beachParty : Option Bool := none
  wedding : Option Bool := none
  isAdult : Option Bool := none
  isPlusOne : Option Bool := none
  dietary : Option String := none
  meal : Option String := none
  submittedBy : Option String := none
  message : Option String := none
deriving Repr, DecidableEq

/-- A per-guest draft row gathered by the client's details step and sent
in `rsvpData.guests`. -/
structure GuestDraft where
  id : String
  firstName : String
  lastName : String
  isAdult : Bool
  notAttending : Bool
  events : List String
  meal : String
  dietary : String
deriving Repr, DecidableEq

/-- The plus-one draft sent in `rsvpData.plusOne`. -/
structure PlusOneDraft where
  name : String
  events : List String
  meal : String
  dietary : String
deriving Repr, DecidableEq

/-- The single whole-party decline record pushed when `!attending`. -/
def declineRecord (leader : Guest) (members : List Member)
    (message : String) : RsvpFields :=
  { guestIds := [leader.id]
    guestName :=
      String.intercalate ", "
        (members.map (fun m => m.firstName ++ " " ++ m.lastName))
    attending := some false
    message := some message }

/-- The record pushed for an attending guest with at least one event:
`Dietary` is included only when the draft's dietary text is truthy. -/
def attendRecord (message : String) (g : GuestDraft) : RsvpFields :=
  { guestIds := [g.id]
    guestName := g.firstName ++ " " ++ g.lastName
    attending := some true
    welcomeParty := some (g.events.contains "welcome")
    beachParty := some (g.events.contains "beach")
    wedding := some (g.events.contains "wedding")
    isAdult := some g.isAdult
    message := some message
    dietary := if g.dietary ≠ "" then some g.dietary else none }

/-- The record pushed for a guest individually marked not attending. -/
def notAttendingRecord (g : GuestDraft) : RsvpFields :=
  { guestIds := [g.id]
    guestName := g.firstName ++ " " ++ g.lastName
    attending := some false
    isAdult := some g.isAdult }

/-- The record pushed for a named plus-one: no linked guest id. -/
def plusOneRecord (leader : Guest) (p : PlusOneDraft) : RsvpFields :=
  { guestName := p.name ++ " (Guest of " ++ leader.firstName ++ ")"
    attending := some true
    welcomeParty := some (p.events.contains "welcome")
    beachParty := some (p.events.contains "beach")
    wedding := some (p.events.contains "wedding")
    isPlusOne := some true
    dietary := if p.dietary ≠ "" then some p.dietary else none }

/-- The `if (plusOne && plusOne.name)` push of the plus-one record. -/
def plusOneBatch (leader : Guest) : Option PlusOneDraft → List RsvpFields
  | some p => if p.name ≠ "" then [plusOneRecord leader p] else []
  | none => []

/-- Record assembly of the submit-rsvp handler (its `records` array):
the decline path pushes a single whole-party record; the attend path
pushes one record per attending guest with a non-empty event list, then
one per individually non-attending guest, then the plus-one record when
a plus-one name was supplied. -/
def buildRecords (leader : Guest) (members : List Member) (attending : Bool)
    (guests : List GuestDraft) (plusOne : Option PlusOneDraft)
    (message : String) : List RsvpFields :=
  if !attending then
    [declineRecord leader members message]
  else
    (guests.filter (fun g => !g.notAttending && !g.events.isEmpty)).map
        (attendRecord message)
      ++ (guests.filter (fun g => g.notAttending)).map notAttendingRecord
      ++ plusOneBatch leader plusOne

/-- Effects of the persistence phase of the submit handler: which RSVP
records were created, which guest ids were marked as responded, and
whether the handler returned success (HTTP 200) or the catch-all 500. -/
structure CommitEffects where
  created : List RsvpFields
  marked : List String
  success : Bool
deriving Repr, DecidableEq

/-- The two-phase persistence of the submit handler: `createRsvpRecords`
is called only for a non-empty batch and throws on an Airtable error
(`createOk = false`), in which case control jumps to the catch block
before any `markGuestResponded` call; otherwise every id in `members` is
marked as responded, whatever the batch contained. -/
def commitRsvp (records : List RsvpFields) (members : List Member)
    (createOk : Bool) : CommitEffects :=
  if records.isEmpty then
    { created := [], marked := members.map Member.id, success := true }
  else if createOk then
    { created := records, marked := members.map Member.id, success := true }
  else
    { created := [], marked := [], success := false }

/-- The whole submit-rsvp handler body: build the records, then commit. -/
def submitHandler (leader : Guest) (members : List Member) (attending : Bool)
    (guests : List GuestDraft) (plusOne : Option PlusOneDraft)
    (message : String) (createOk : Bool) : CommitEffects :=
  commitRsvp (buildRecords leader members attending guests plusOne message)
    members createOk

/-- Substring test on character lists (Airtable's `FIND` is truthy exactly
when the needle occurs in the haystack). -/
def substrAux (needle : List Char) : List Char → Bool
  | [] => needle.isEmpty
  | c :: t => needle.isPrefixOf (c :: t) || substrAux needle t

/-- `FIND(needle, hay)` truthiness: needle occurs in hay. -/
def findInJoin (needle hay : String) : Bool :=
  substrAux needle.toList hay.toList

/-- The filter formula of `fetchExistingRsvp`:
`OR(FIND("id", ARRAYJOIN({Guest})) ...)` over the member ids, applied by
the store to the `RSVPs` table. -/
def queryRsvps (store : List RsvpFields) (memberIds : List String) :
    List RsvpFields :=
  store.filter (fun r =>
    memberIds.any (fun mid =>
      findInJoin mid (String.intercalate "," r.guestIds)))

/-- An attending entry reconstructed by `fetchExistingRsvp`. -/
structure ResolvedGuest where
  name : String
  events : List String
  meal : String
  dietary : String
  isPlusOne : Bool
deriving Repr, DecidableEq

/-- A non-attending entry reconstructed by `fetchExistingRsvp`. -/
structure ResolvedDecliner where
  name : String
  isPlusOne : Bool
deriving Repr, DecidableEq

/-- The response object of `fetchExistingRsvp` (`existingRsvp` in the
lookup response).  The two fallback responses carry no
`notAttendingGuests` key, modelled as the empty list. -/
structure ExistingRsvp where
  attending : Bool
  guests : List ResolvedGuest
  notAttendingGuests : List ResolvedDecliner
  submittedBy : String
  message : String
deriving Repr, DecidableEq

/-- Event-list reconstruction from the three fixed boolean fields, in the
order welcome, beach, wedding. -/
def eventsOf (r : RsvpFields) : List String :=
  (if r.welcomeParty.getD false then ["welcome"] else [])
    ++ (if r.beachParty.getD false then ["beach"] else [])
    ++ (if r.wedding.getD false then ["wedding"] else [])

/-- The attending entry built from one fetched record. -/
def mkResolvedGuest (r : RsvpFields) : ResolvedGuest :=
  { name := r.guestName
    events := eventsOf r
    meal := r.meal.getD ""
    dietary := r.dietary.getD ""
    isPlusOne := r.isPlusOne.getD false }

/-- Accumulator of the `data.records.forEach` loop of
`fetchExistingRsvp`. -/
structure ResolveAcc where
  att : List ResolvedGuest
  natt : List ResolvedDecliner
  sb : String
  msg : String
deriving Repr, DecidableEq

/-- One iteration of the `forEach` loop: capture the first truthy
`Submitted By` and `Message`, then partition on `Attending === false`. -/
def resolveStep (acc : ResolveAcc) (r : RsvpFields) : ResolveAcc :=
  let sb := if acc.sb == "" && !(r.submittedBy.getD "" == "") then
      r.submittedBy.getD "" else acc.sb
  let msg := if acc.msg == "" && !(r.message.getD "" == "") then
      r.message.getD "" else acc.msg
  if r.attending == some false then
    { att := acc.att
      natt := acc.natt ++ [⟨r.guestName, r.isPlusOne.getD false⟩]
      sb := sb, msg := msg }
  else
    { att := acc.att ++ [mkResolvedGuest r]
      natt := acc.natt
      sb := sb, msg := msg }

/-- Outcome of the RSVPs-table HTTP round trip inside
`fetchExistingRsvp`: a non-ok response, or the fetched record list. -/
inductive RsvpFetch where
  | httpError
  | ok (records : List RsvpFields)
deriving Repr, DecidableEq

/-- `fetchExistingRsvp`: fail-open placeholder on a non-ok response;
"party declined" fallback on zero records; otherwise the reconstruction
loop followed by final assembly
(`attending: attendingGuests.length > 0`,
`submittedBy: submittedBy || 'a party member'`). -/
def fetchExistingRsvp : RsvpFetch → ExistingRsvp
  | .httpError =>
    { attending := true, guests := [], notAttendingGuests := []
      submittedBy := "a party member", message := "" }
  | .ok records =>
    if records.isEmpty then
      { attending := false, guests := [], notAttendingGuests := []
        submittedBy := "a party member", message := "" }
    else
      let acc := records.foldl resolveStep ⟨[], [], "", ""⟩
      { attending := !acc.att.isEmpty
        guests := acc.att
        notAttendingGuests := acc.natt
        submittedBy := if acc.sb == "" then "a party member" else acc.sb
        message := acc.msg }

/-- The 200-response body of the lookup-guest handler. -/
structure LookupResponse where
  leader : Guest
  members : List Member
  hasPlusOne : Bool
  existingRsvp : Option ExistingRsvp
deriving Repr, DecidableEq

/-- Outcome of the lookup-guest handler: the 404 `not_found` response or
the 200 response. -/
inductive LookupResult where
  | notFound
  | found (resp : LookupResponse)
deriving Repr, DecidableEq

/-- The lookup-guest handler body: search the guest, resolve the party
members, and — only when some member's has-responded flag is true —
fetch the existing RSVP (`rsvpHttpOk` is whether that round trip
returned an ok response, `store` the RSVPs table it queries). -/
def lookupGuest (db : List GuestRecord) (store : List RsvpFields)
    (rsvpHttpOk : Bool) (firstName lastName : String) : LookupResult :=
  match searchGuest db firstName lastName with
  | none => .notFound
  | some guest =>
    let members := lookupMembers db guest
    let existingRsvp : Option ExistingRsvp :=
      if members.any (fun m => m.hasResponded) then
        some (fetchExistingRsvp
          (if rsvpHttpOk then .ok (queryRsvps store (members.map Member.id))
           else .httpError))
      else none
    .found
      { leader := guest
        members := members
        hasPlusOne := guest.plusOneAllowed && guest.partyName == ""
        existingRsvp := existingRsvp }

/-- Outcome of the client's `handleFindInvitation` after the lookup call:
the locked already-submitted view, the details step (step 2), the
couldn't-find message, or the generic catch-block message. -/
inductive FindOutcome where
  | locked (rsvp : ExistingRsvp)
  | details (members : List Member)
  | notFoundMessage
  | genericErrorMessage
deriving Repr, DecidableEq

/-- `handleFindInvitation` after `findGuestInAirtable` returns (`.error`
is the catch block; a null result is the not-found message): a truthy
`existingRsvp` shows the already-submitted view and returns before the
details step; otherwise the form data is initialised and step 2 shown. -/
def handleFindInvitation : Except Unit LookupResult → FindOutcome
  | .error _ => .genericErrorMessage
  | .ok .notFound => .notFoundMessage
  | .ok (.found resp) =>
    match resp.existingRsvp with
    | some e => .locked e
    | none => .details resp.members

/-- Truthiness of `formData.plusOne?.name`. -/
def plusOneNamed : Option PlusOneDraft → Bool
  | none => false
  | some p => !(p.name == "")

/-- Outcome of the client's `handleDetailsSubmit`: automatic redirection
to the decline path, staying in the details step with an alert message,
or proceeding to the review step (step 3). -/
inductive DetailsOutcome where
  | declinePath
  | stay (alertMessage : String)
  | review
deriving Repr, DecidableEq

/-- The alert naming a guest with no selected event. -/
def noEventMessage (firstName : String) : String :=
  "Please select at least one event for " ++ firstName ++ " to attend."

/-- The decision logic of `handleDetailsSubmit` on the gathered drafts:
if every guest opted out and no plus-one is named, submit as a decline;
otherwise reject the first attending guest with an empty event list,
then a named plus-one with an empty event list; else go to review. -/
def handleDetailsSubmit (guests : List GuestDraft)
    (plusOne : Option PlusOneDraft) : DetailsOutcome :=
  let attendingGuests := guests.filter (fun g => !g.notAttending)
  if attendingGuests.isEmpty && !plusOneNamed plusOne then
    .declinePath
  else
    match attendingGuests.find? (fun g => g.events.isEmpty) with
    | some g => .stay (noEventMessage g.firstName)
    | none =>
      match plusOne with
      | some p =>
        if !(p.name == "") && p.events.isEmpty then
          .stay "Please select at least one event for your guest to attend."
        else .review
      | none => .review

/-- Outcome of a `submitRSVPToAirtable` call (ok response, or a thrown
error from a non-ok response). -/
inductive SubmitOutcome where
  | ok
  | failed
deriving Repr, DecidableEq

/-- The view the client ends in after a submission attempt. -/
inductive ClientView where
  | declineState
  | successState
  | reviewRetry (alertMessage : String) (submitEnabled : Bool)
deriving Repr, DecidableEq

/-- `submitDecline`: shows the decline state on success, and its catch
block still shows the decline state when the API call fails. -/
def submitDecline : SubmitOutcome → ClientView
  | .ok => .declineState
  | .failed => .declineState

/-- `handleFinalSubmit`: success state on an ok submission; on failure
the catch block alerts a retry message, re-enables the submit button and
stays on the review step. -/
def handleFinalSubmit : SubmitOutcome → ClientView
  | .ok => .successState
  | .failed =>
    .reviewRetry
      "There was an error submitting your RSVP. Please try again or contact us directly."
      true

/-! Concrete fixture data, mirroring the demo dataset of the site script,
used to instantiate the theorems below on closed inputs. -/

/-- Fixture: solo guest row with plus-one allowed. -/
def johnRecord : GuestRecord :=
  ⟨"recJohn", ⟨"John", "Smith", "john@example.com", "", true, false, "Adult"⟩⟩

/-- Fixture: solo guest row that has already responded. -/
def bobRecord : GuestRecord :=
  ⟨"recBob", ⟨"Bob", "Responded", "bob@example.com", "", false, true, "Adult"⟩⟩

/-- Fixture: family member row, has responded. -/
def pierreRecord : GuestRecord :=
  ⟨"recPierre",
    ⟨"Pierre", "Njeim", "pierre@example.com", "Njeim Family", false, true,
      "Adult"⟩⟩

/-- Fixture: family member row, has not responded. -/
def lucianaRecord : GuestRecord :=
  ⟨"recLuciana",
    ⟨"Luciana", "Njeim", "", "Njeim Family", false, false, "Adult"⟩⟩

/-- Fixture guests table. -/
def fixtureDb : List GuestRecord :=
  [johnRecord, bobRecord, pierreRecord, lucianaRecord]

/-- Fixture: John as the matched guest object. -/
def johnGuest : Guest := mkGuest johnRecord

/-- Fixture: John as a party member. -/
def johnMember : Member := johnGuest.toMember

/-- Fixture: an attending draft for John. -/
def johnDraft : GuestDraft :=
  ⟨"recJohn", "John", "Smith", true, false, ["wedding"], "", ""⟩

/-- Fixture: John individually opting out. -/
def johnOptOutDraft : GuestDraft :=
  ⟨"recJohn", "John", "Smith", true, true, [], "", ""⟩

/-- Fixture: an attending draft with no selected events. -/
def annDraft : GuestDraft :=
  ⟨"recAnn", "Ann", "Lee", true, false, [], "", ""⟩

/-- Fixture: Bob as the matched guest object. -/
def bobGuest : Guest := mkGuest bobRecord

/-- Fixture: Luciana as the matched guest object. -/
def lucianaGuest : Guest := mkGuest lucianaRecord

/-- Fixture: the lookup response for John against `fixtureDb`. -/
def johnLookupResponse : LookupResponse :=
  { leader := johnGuest
    members := [johnMember]
    hasPlusOne := true
    existingRsvp := none }

/-! Helper lemmas about the substring and fold machinery. -/

/-- A list is a prefix of itself, in the executable sense. -/
theorem isPrefixOf_self (l : List Char) : l.isPrefixOf l = true := by
  induction l with
  | nil => rfl
  | cons c t ih => simp [List.isPrefixOf, ih]

/-- Airtable `FIND` of a string in itself succeeds. -/
theorem findInJoin_self (s : String) : findInJoin s s = true := by
  unfold findInJoin
  cases h : s.toList with
  | nil => simp [substrAux]
  | cons c t => simp [substrAux, isPrefixOf_self]

/-- A non-empty string has a non-empty character list. -/
theorem toList_isEmpty_eq_false (s : String) (hs : s ≠ "") :
    s.toList.isEmpty = false := by
  rcases s with ⟨data⟩
  cases data with
  | nil => exact absurd rfl hs
  | cons c t => rfl

/-- Airtable `FIND` of a non-empty string in the empty string fails. -/
theorem findInJoin_empty (s : String) (hs : s ≠ "") :
    findInJoin s "" = false := by
  unfold findInJoin
  simpa [substrAux] using toList_isEmpty_eq_false s hs

/-- The attending accumulator of the resolver loop collects, in order,
exactly the records not strictly marked `Attending === false`. -/
theorem foldl_resolveStep_att (rs : List RsvpFields) (acc : ResolveAcc) :
    (rs.foldl resolveStep acc).att =
      acc.att ++
        (rs.filter (fun r => !(r.attending == some false))).map
          mkResolvedGuest := by
  induction rs generalizing acc with
  | nil => simp
  | cons r t ih =>
    rw [List.foldl_cons, ih]
    by_cases h : r.attending == some false
    · simp [resolveStep, h, List.filter_cons]
    · simp [resolveStep, h, List.filter_cons]

/-- A successful commit persists exactly the built batch. -/
theorem commitRsvp_created_ok (records : List RsvpFields)
    (members : List Member) :
    (commitRsvp records members true).created = records := by
  by_cases h : records.isEmpty
  · rw [List.isEmpty_iff] at h
    simp [commitRsvp, h]
  · simp [commitRsvp, h]

/-- C7: on a failed RSVPs query the resolver propagates no error: it
returns the conservative placeholder
`{attending: true, guests: [], submittedBy: 'a party member',
message: ''}`. -/
theorem resolver_fail_open_placeholder :
    fetchExistingRsvp .httpError =
      { attending := true, guests := [], notAttendingGuests := []
        submittedBy := "a party member", message := "" } := rfl

/-- C9: a decline-path persistence failure is swallowed (the decline
confirmation is shown either way), whereas an attend-path persistence
failure keeps the workflow in Review with submission re-enabled and a
retry message surfaced. -/
theorem decline_attend_failure_asymmetry :
    submitDecline .failed = .declineState
    ∧ submitDecline .ok = .declineState
    ∧ handleFinalSubmit .failed =
        .reviewRetry
          "There was an error submitting your RSVP. Please try again or contact us directly."
          true
    ∧ handleFinalSubmit .ok = .successState :=
  ⟨rfl, rfl, rfl, rfl⟩

/-- C4: commit is a strict two-phase side effect: whenever record
creation succeeds (or the batch is empty and creation is skipped), every
member of `members` is marked responded, regardless of the batch's
contents; and when creation of a non-empty batch fails, no member is
marked. -/
theorem commit_two_phase (records : List RsvpFields) (members : List Member)
    (createOk : Bool) :
    ((createOk = true ∨ records = []) →
      (commitRsvp records members createOk).marked = members.map Member.id
      ∧ (commitRsvp records members createOk).success = true)
    ∧ ((createOk = false ∧ records ≠ []) →
      (commitRsvp records members createOk).marked = []
      ∧ (commitRsvp records members createOk).success = false) := by
  constructor
  · rintro (rfl | rfl)
    · by_cases h : records.isEmpty <;> simp [commitRsvp, h]
    · simp [commitRsvp]
  · rintro ⟨rfl, hne⟩
    have h : records.isEmpty = false := by
      cases records with
      | nil => exact absurd rfl hne
      | cons r t => rfl
    simp [commitRsvp, h]

/-- C4 witness: a failed creation of a non-empty batch marks nobody, and
a successful empty batch still marks every member. -/
theorem commit_two_phase_witness :
    ((commitRsvp [notAttendingRecord johnOptOutDraft] [johnMember]
        false).marked = []
      ∧ (commitRsvp [notAttendingRecord johnOptOutDraft] [johnMember]
          false).success = false)
    ∧ ((commitRsvp [] [johnMember] false).marked = [johnMember].map Member.id
      ∧ (commitRsvp [] [johnMember] false).success = true) :=
  ⟨(commit_two_phase [notAttendingRecord johnOptOutDraft] [johnMember]
      false).2 ⟨rfl, by decide⟩,
    (commit_two_phase [] [johnMember] false).1 (Or.inr rfl)⟩

/-- Shape of the lookup handler's 200 response once a guest matched. -/
theorem lookupGuest_found (db : List GuestRecord) (store : List RsvpFields)
    (rsvpHttpOk : Bool) (fn ln : String) (g : Guest)
    (hg : searchGuest db fn ln = some g) :
    lookupGuest db store rsvpHttpOk fn ln = .found
      { leader := g
        members := lookupMembers db g
        hasPlusOne := g.plusOneAllowed && g.partyName == ""
        existingRsvp :=
          if (lookupMembers db g).any (fun m => m.hasResponded) then
            some (fetchExistingRsvp
              (if rsvpHttpOk then
                .ok (queryRsvps store ((lookupMembers db g).map Member.id))
               else .httpError))
          else none } := by
  simp only [lookupGuest, hg]

/-- C10: the lookup response's `hasPlusOne` is exactly the matched
guest's plus-one-allowed flag conjoined with the guest having an empty
party name; in particular it is false for any guest with a non-empty
party name. -/
theorem lookup_hasPlusOne (db : List GuestRecord) (store : List RsvpFields)
    (rsvpHttpOk : Bool) (fn ln : String) (resp : LookupResponse)
    (h : lookupGuest db store rsvpHttpOk fn ln = .found resp) :
    resp.hasPlusOne =
      (resp.leader.plusOneAllowed && resp.leader.partyName == "")
    ∧ (resp.leader.partyName ≠ "" → resp.hasPlusOne = false) := by
  cases hg : searchGuest db fn ln with
  | none =>
    rw [lookupGuest, hg] at h
    exact absurd h (by simp)
  | some g =>
    rw [lookupGuest_found db store rsvpHttpOk fn ln g hg] at h
    injection h with h
    subst h
    refine ⟨rfl, fun hne => ?_⟩
    have hb : (g.partyName == "") = false := beq_eq_false_iff_ne.mpr hne
    simp [hb]

/-- C10 witness: solo John with the flag set gets `hasPlusOne = true`,
matching the formula. -/
theorem lookup_hasPlusOne_witness :
    johnLookupResponse.hasPlusOne =
      (johnLookupResponse.leader.plusOneAllowed &&
        johnLookupResponse.leader.partyName == "")
    ∧ (johnLookupResponse.leader.partyName ≠ "" →
        johnLookupResponse.hasPlusOne = false) :=
  lookup_hasPlusOne fixtureDb [] true "John" "Smith" johnLookupResponse
    (by decide)

/-- C1: once some resolved party member's has-responded flag is true,
the lookup response carries a non-null `existingRsvp`, and the client's
find-invitation handler shows the locked already-submitted view, never
the details step. -/
theorem party_locking (db : List GuestRecord) (store : List RsvpFields)
    (rsvpHttpOk : Bool) (fn ln : String) (g : Guest)
    (hg : searchGuest db fn ln = some g)
    (hresp : ∃ m ∈ lookupMembers db g, m.hasResponded = true) :
    ∃ e, lookupGuest db store rsvpHttpOk fn ln = .found
        { leader := g
          members := lookupMembers db g
          hasPlusOne := g.plusOneAllowed && g.partyName == ""
          existingRsvp := some e }
      ∧ handleFindInvitation (.ok (lookupGuest db store rsvpHttpOk fn ln)) =
          .locked e
      ∧ ∀ ms,
          handleFindInvitation (.ok (lookupGuest db store rsvpHttpOk fn ln)) ≠
            .details ms := by
  obtain ⟨m, hm, hmr⟩ := hresp
  have hany : (lookupMembers db g).any (fun m => m.hasResponded) = true :=
    List.any_eq_true.mpr ⟨m, hm, hmr⟩
  have hlook := lookupGuest_found db store rsvpHttpOk fn ln g hg
  rw [hany, if_pos rfl] at hlook
  refine ⟨_, hlook, ?_, ?_⟩
  · rw [hlook]
    rfl
  · intro ms
    rw [hlook]
    simp [handleFindInvitation]

/-- C1 witness: Bob has responded, so his lookup is locked. -/
theorem party_locking_witness :
    ∃ e, lookupGuest fixtureDb [] true "Bob" "Responded" = .found
        { leader := bobGuest
          members := lookupMembers fixtureDb bobGuest
          hasPlusOne := bobGuest.plusOneAllowed && bobGuest.partyName == ""
          existingRsvp := some e }
      ∧ handleFindInvitation (.ok (lookupGuest fixtureDb [] true "Bob"
          "Responded")) = .locked e
      ∧ ∀ ms,
          handleFindInvitation (.ok (lookupGuest fixtureDb [] true "Bob"
            "Responded")) ≠ .details ms :=
  party_locking fixtureDb [] true "Bob" "Responded" bobGuest (by decide)
    (by decide)

/-- C3: the lookup's member set is the full set of guests sharing the
matched guest's exact party name (the matched guest included) when that
party name is non-empty, and exactly the single matched guest when it is
empty. -/
theorem lookup_member_set (db : List GuestRecord) (store : List RsvpFields)
    (rsvpHttpOk : Bool) (fn ln : String) (g : Guest)
    (hg : searchGuest db fn ln = some g) :
    ∃ resp, lookupGuest db store rsvpHttpOk fn ln = .found resp
      ∧ (g.partyName ≠ "" →
          resp.members =
            (db.filter (fun r => r.fields.partyName == g.partyName)).map
              mkMember
          ∧ g.toMember ∈ resp.members)
      ∧ (g.partyName = "" → resp.members = [g.toMember]) := by
  refine ⟨_, lookupGuest_found db store rsvpHttpOk fn ln g hg, ?_, ?_⟩
  · intro hne
    have hmem : lookupMembers db g = fetchPartyMembers db g.partyName := by
      simp [lookupMembers, hne]
    constructor
    · simpa [fetchPartyMembers] using hmem
    · show g.toMember ∈ lookupMembers db g
      unfold searchGuest at hg
      cases hf : db.find? (fun r =>
          strLower r.fields.firstName == strLower fn &&
          strLower r.fields.lastName == strLower ln) with
      | none => rw [hf] at hg; exact absurd hg (by simp)
      | some r =>
        rw [hf] at hg
        injection hg with hg
        have hrdb : r ∈ db := List.mem_of_find?_eq_some hf
        have hparty : r.fields.partyName = g.partyName := by
          rw [← hg]; rfl
        have hfil : r ∈ db.filter
            (fun r => r.fields.partyName == g.partyName) :=
          List.mem_filter.mpr ⟨hrdb, by simp [hparty]⟩
        have : mkMember r = g.toMember := by
          rw [← hg]; rfl
        rw [hmem]
        exact this ▸ List.mem_map.mpr ⟨r, by simpa [fetchPartyMembers]
          using hfil, rfl⟩
  · intro h0
    show lookupMembers db g = [g.toMember]
    simp [lookupMembers, h0]

/-- C3 witness: Luciana's lookup returns every Njeim Family row, herself
included. -/
theorem lookup_member_set_witness :
    ∃ resp, lookupGuest fixtureDb [] true "Luciana" "Njeim" = .found resp
      ∧ (lucianaGuest.partyName ≠ "" →
          resp.members =
            (fixtureDb.filter
              (fun r => r.fields.partyName == lucianaGuest.partyName)).map
              mkMember
          ∧ lucianaGuest.toMember ∈ resp.members)
      ∧ (lucianaGuest.partyName = "" →
          resp.members = [lucianaGuest.toMember]) :=
  lookup_member_set fixtureDb [] true "Luciana" "Njeim" lucianaGuest
    (by decide)

/-- C8: a successful RSVPs query returning zero records — reached only
because some member's has-responded flag is true — is resolved as the
party having declined: `attending = false` with an empty guest list. -/
theorem zero_records_resolved_declined (db : List GuestRecord)
    (store : List RsvpFields) (fn ln : String) (g : Guest)
    (hg : searchGuest db fn ln = some g)
    (hresp : ∃ m ∈ lookupMembers db g, m.hasResponded = true)
    (hq : queryRsvps store ((lookupMembers db g).map Member.id) = []) :
    lookupGuest db store true fn ln = .found
      { leader := g
        members := lookupMembers db g
        hasPlusOne := g.plusOneAllowed && g.partyName == ""
        existingRsvp := some
          { attending := false, guests := [], notAttendingGuests := []
            submittedBy := "a party member", message := "" } } := by
  obtain ⟨m, hm, hmr⟩ := hresp
  have hany : (lookupMembers db g).any (fun m => m.hasResponded) = true :=
    List.any_eq_true.mpr ⟨m, hm, hmr⟩
  rw [lookupGuest_found db store true fn ln g hg, hany]
  simp [hq, fetchExistingRsvp]

/-- C8 witness: Bob has responded but the RSVPs table holds nothing for
him, so his lookup resolves to a decline. -/
theorem zero_records_resolved_declined_witness :
    lookupGuest fixtureDb [] true "Bob" "Responded" = .found
      { leader := bobGuest
        members := lookupMembers fixtureDb bobGuest
        hasPlusOne := bobGuest.plusOneAllowed && bobGuest.partyName == ""
        existingRsvp := some
          { attending := false, guests := [], notAttendingGuests := []
            submittedBy := "a party member", message := "" } } :=
  zero_records_resolved_declined fixtureDb [] "Bob" "Responded" bobGuest
    (by decide) (by decide) (by decide)

/-- C6: a draft containing a not-opted-out guest with zero selected
events stays in the details step with a message naming the first such
guest; a draft in which every guest opted out and no plus-one is named
is redirected to the decline path instead of Review. -/
theorem details_validation (guests : List GuestDraft)
    (plusOne : Option PlusOneDraft) :
    ((∃ g ∈ guests, g.notAttending = false ∧ g.events = []) →
      ∃ g ∈ guests, g.notAttending = false ∧ g.events = []
        ∧ handleDetailsSubmit guests plusOne =
            .stay (noEventMessage g.firstName))
    ∧ ((∀ g ∈ guests, g.notAttending = true) →
        plusOneNamed plusOne = false →
        handleDetailsSubmit guests plusOne = .declinePath) := by
  constructor
  · rintro ⟨g, hgm, hna, hev⟩
    set ag := guests.filter (fun g => !g.notAttending) with hag
    have hgag : g ∈ ag := List.mem_filter.mpr ⟨hgm, by simp [hna]⟩
    have hne : ag.isEmpty = false := by
      simp [List.isEmpty_eq_false]
      exact List.ne_nil_of_mem hgag
    have hsome : (ag.find? (fun g => g.events.isEmpty)).isSome :=
      List.find?_isSome.mpr ⟨g, hgag, by simp [hev]⟩
    obtain ⟨g0, hfind⟩ := Option.isSome_iff_exists.mp hsome
    have hp0 : g0.events.isEmpty = true := by
      have hfp := List.find?_some hfind
      simpa using hfp
    have hg0ag : g0 ∈ ag := List.mem_of_find?_eq_some hfind
    have hg0m : g0 ∈ guests := (List.mem_filter.mp hg0ag).1
    have hg0na : g0.notAttending = false := by
      have h2 := (List.mem_filter.mp hg0ag).2
      simpa using h2
    refine ⟨g0, hg0m, hg0na, by simpa using hp0, ?_⟩
    simp only [handleDetailsSubmit, ← hag, hne, Bool.false_and,
      Bool.false_eq_true, if_false, hfind]
  · intro hall hpn
    have hag0 : guests.filter (fun g => !g.notAttending) = [] :=
      List.filter_eq_nil_iff.mpr (fun a ha => by simp [hall a ha])
    simp [handleDetailsSubmit, hag0, hpn]

/-- C6 witness: Ann attends with no events and blocks progression by
name; an all-opted-out draft with no plus-one declines. -/
theorem details_validation_witness :
    (∃ g ∈ [annDraft], g.notAttending = false ∧ g.events = []
      ∧ handleDetailsSubmit [annDraft] none =
          .stay (noEventMessage g.firstName))
    ∧ handleDetailsSubmit [johnOptOutDraft] none = .declinePath :=
  ⟨(details_validation [annDraft] none).1 (by decide),
    (details_validation [johnOptOutDraft] none).2 (by decide) (by decide)⟩

/-- C5 counterexample: the record built for a guest who individually
opted out carries neither a submitted-by field nor the message, so not
every persisted record carries the submission metadata. -/
theorem metadata_counterexample :
    ¬ ∀ r ∈ buildRecords johnGuest [johnMember] true [johnOptOutDraft]
        none "hello",
        r.submittedBy ≠ none ∧ r.message ≠ none := by decide

/-- C5 amended: the builder attaches the free-text message to the
whole-party decline record and to each attending guest's record, but to
no individually non-attending record and no plus-one record, and it
never attaches a submitted-by field to any record. -/
theorem metadata_per_record (leader : Guest) (members : List Member)
    (attending : Bool) (guests : List GuestDraft)
    (plusOne : Option PlusOneDraft) (message : String) :
    ∀ r ∈ buildRecords leader members attending guests plusOne message,
      r.submittedBy = none
      ∧ (attending = false → r.message = some message)
      ∧ (attending = true →
          (r.message = some message ↔
            (r.attending = some true ∧ r.isPlusOne = none))) := by
  intro r hr
  cases attending with
  | false =>
    have hb : buildRecords leader members false guests plusOne message =
        [declineRecord leader members message] := rfl
    rw [hb] at hr
    rcases List.mem_singleton.mp hr with rfl
    exact ⟨rfl, fun _ => rfl, fun h => Bool.noConfusion h⟩
  | true =>
    have hb : buildRecords leader members true guests plusOne message =
        (guests.filter (fun g => !g.notAttending && !g.events.isEmpty)).map
            (attendRecord message)
          ++ (guests.filter (fun g => g.notAttending)).map notAttendingRecord
          ++ plusOneBatch leader plusOne := rfl
    rw [hb] at hr
    rcases List.mem_append.mp hr with h1 | h2
    · rcases List.mem_append.mp h1 with hA | hB
      · obtain ⟨g', _, rfl⟩ := List.mem_map.mp hA
        exact ⟨rfl, fun h => Bool.noConfusion h,
          fun _ => by simp [attendRecord]⟩
      · obtain ⟨g', _, rfl⟩ := List.mem_map.mp hB
        exact ⟨rfl, fun h => Bool.noConfusion h,
          fun _ => by simp [notAttendingRecord]⟩
    · cases plusOne with
      | none => exact absurd h2 (by simp [plusOneBatch])
      | some p =>
        by_cases hname : p.name = ""
        · simp [plusOneBatch, hname] at h2
        · simp only [plusOneBatch, if_pos hname] at h2
          rcases List.mem_singleton.mp h2 with rfl
          exact ⟨rfl, fun h => Bool.noConfusion h,
            fun _ => by simp [plusOneRecord]⟩

/-- C5 amended witness: the opt-out record of the counterexample input
indeed has no submitted-by field and no message. -/
theorem metadata_per_record_witness :
    (notAttendingRecord johnOptOutDraft).submittedBy = none
    ∧ (true = false →
        (notAttendingRecord johnOptOutDraft).message = some "hello")
    ∧ (true = true →
        ((notAttendingRecord johnOptOutDraft).message = some "hello" ↔
          ((notAttendingRecord johnOptOutDraft).attending = some true
            ∧ (notAttendingRecord johnOptOutDraft).isPlusOne = none))) :=
  metadata_per_record johnGuest [johnMember] true [johnOptOutDraft] none
    "hello" (notAttendingRecord johnOptOutDraft) (by decide)

/-- Membership in the reconstructed event list of an attending-guest
record agrees with the submitted draft on the three fixed events. -/
theorem mem_eventsOf_attendRecord (message : String) (g : GuestDraft)
    (e : String) :
    e ∈ eventsOf (attendRecord message g) ↔
      (e ∈ ["welcome", "beach", "wedding"] ∧ e ∈ g.events) := by
  have hsplit : ∀ (c : Bool) (x : String),
      (e ∈ if c = true then [x] else []) ↔ (c = true ∧ e = x) := by
    intro c x
    cases c <;> simp
  simp only [eventsOf, attendRecord, Option.getD_some, List.mem_append,
    hsplit]
  simp only [List.contains, List.elem_iff, List.mem_cons,
    List.not_mem_nil, or_false]
  constructor
  · rintro ((⟨hc, rfl⟩ | ⟨hc, rfl⟩) | ⟨hc, rfl⟩)
    · exact ⟨Or.inl rfl, hc⟩
    · exact ⟨Or.inr (Or.inl rfl), hc⟩
    · exact ⟨Or.inr (Or.inr rfl), hc⟩
  · rintro ⟨(rfl | rfl | rfl), hm⟩
    · exact Or.inl (Or.inl ⟨hm, rfl⟩)
    · exact Or.inl (Or.inr ⟨hm, rfl⟩)
    · exact Or.inr ⟨hm, rfl⟩

/-- The reconstructed dietary note of an attending-guest record equals
the submitted one (the omitted-if-empty field reads back as `''`). -/
theorem dietary_of_attendRecord (message : String) (g : GuestDraft) :
    (mkResolvedGuest (attendRecord message g)).dietary = g.dietary := by
  by_cases h : g.dietary = "" <;>
    simp [mkResolvedGuest, attendRecord, h]

/-- C2: attend-path round trip.  Building and committing a party's
attend-path submission and then resolving that party's RSVP state
reconstructs, for each attending guest, the submitted full name, the
submitted event set over welcome/beach/wedding, and the submitted
dietary note. -/
theorem attend_roundtrip (leader : Guest) (members : List Member)
    (guests : List GuestDraft) (plusOne : Option PlusOneDraft)
    (message : String)
    (hids : ∀ g ∈ guests, g.id ∈ members.map Member.id)
    (hnid : ∀ mid ∈ members.map Member.id, mid ≠ "") :
    ∀ g ∈ guests, g.notAttending = false → g.events ≠ [] →
      ∃ entry ∈ (fetchExistingRsvp (.ok (queryRsvps
          (submitHandler leader members true guests plusOne message
            true).created
          (members.map Member.id)))).guests,
        entry.name = g.firstName ++ " " ++ g.lastName
        ∧ (∀ e : String,
            e ∈ entry.events ↔
              (e ∈ ["welcome", "beach", "wedding"] ∧ e ∈ g.events))
        ∧ entry.dietary = g.dietary := by
  intro g hg hna hev
  have hcreated : (submitHandler leader members true guests plusOne message
      true).created =
      buildRecords leader members true guests plusOne message :=
    commitRsvp_created_ok _ _
  have hbuild : buildRecords leader members true guests plusOne message =
      (guests.filter (fun g => !g.notAttending && !g.events.isEmpty)).map
          (attendRecord message)
        ++ (guests.filter (fun g => g.notAttending)).map notAttendingRecord
        ++ plusOneBatch leader plusOne := rfl
  rw [hcreated, hbuild]
  set A := (guests.filter
      (fun g => !g.notAttending && !g.events.isEmpty)).map
      (attendRecord message) with hA
  set B := (guests.filter (fun g => g.notAttending)).map notAttendingRecord
    with hB
  set C := plusOneBatch leader plusOne with hC
  have hpredA : ∀ r ∈ A, ((members.map Member.id).any (fun mid =>
      findInJoin mid (String.intercalate "," r.guestIds))) = true := by
    intro r hr
    rw [hA] at hr
    obtain ⟨g', hg', rfl⟩ := List.mem_map.mp hr
    have hg'm : g' ∈ guests := (List.mem_filter.mp hg').1
    refine List.any_eq_true.mpr ⟨g'.id, hids g' hg'm, ?_⟩
    have hj : String.intercalate ","
        (attendRecord message g').guestIds = g'.id := rfl
    rw [hj]
    exact findInJoin_self g'.id
  have hpredB : ∀ r ∈ B, ((members.map Member.id).any (fun mid =>
      findInJoin mid (String.intercalate "," r.guestIds))) = true := by
    intro r hr
    rw [hB] at hr
    obtain ⟨g', hg', rfl⟩ := List.mem_map.mp hr
    have hg'm : g' ∈ guests := (List.mem_filter.mp hg').1
    refine List.any_eq_true.mpr ⟨g'.id, hids g' hg'm, ?_⟩
    have hj : String.intercalate ","
        (notAttendingRecord g').guestIds = g'.id := rfl
    rw [hj]
    exact findInJoin_self g'.id
  have hpredC : ∀ r ∈ C, ¬ (((members.map Member.id).any (fun mid =>
      findInJoin mid (String.intercalate "," r.guestIds))) = true) := by
    intro r hr
    have hids0 : r.guestIds = [] := by
      rw [hC] at hr
      cases plusOne with
      | none => exact absurd hr (by simp [plusOneBatch])
      | some p =>
        by_cases hn : p.name = ""
        · simp [plusOneBatch, hn] at hr
        · simp only [plusOneBatch, if_pos hn] at hr
          rcases List.mem_singleton.mp hr with rfl
          rfl
    simp only [hids0]
    intro hcon
    obtain ⟨mid, hmid, hf⟩ := List.any_eq_true.mp hcon
    have hje : String.intercalate "," ([] : List String) = "" := rfl
    rw [hje] at hf
    rw [findInJoin_empty mid (hnid mid hmid)] at hf
    exact Bool.noConfusion hf
  have hquery : queryRsvps (A ++ B ++ C) (members.map Member.id) =
      A ++ B := by
    unfold queryRsvps
    rw [List.filter_append, List.filter_append,
      List.filter_eq_self.mpr hpredA, List.filter_eq_self.mpr hpredB,
      List.filter_eq_nil_iff.mpr hpredC, List.append_nil]
  rw [hquery]
  have hmemA : attendRecord message g ∈ A := by
    rw [hA]
    refine List.mem_map.mpr ⟨g, List.mem_filter.mpr ⟨hg, ?_⟩, rfl⟩
    simp [hna, List.isEmpty_eq_false, hev]
  have hnonempty : (A ++ B).isEmpty = false := by
    rw [List.isEmpty_eq_false]
    exact List.ne_nil_of_mem (List.mem_append_left B hmemA)
  have hresolve : (fetchExistingRsvp (.ok (A ++ B))).guests =
      ((A ++ B).filter (fun r => !(r.attending == some false))).map
        mkResolvedGuest := by
    simp only [fetchExistingRsvp, hnonempty, Bool.false_eq_true, if_false]
    rw [foldl_resolveStep_att]
    simp
  have hfAB : (A ++ B).filter (fun r => !(r.attending == some false)) =
      A := by
    rw [List.filter_append]
    have h1 : A.filter (fun r => !(r.attending == some false)) = A := by
      refine List.filter_eq_self.mpr ?_
      intro r hr
      rw [hA] at hr
      obtain ⟨g', _, rfl⟩ := List.mem_map.mp hr
      rfl
    have h2 : B.filter (fun r => !(r.attending == some false)) = [] := by
      refine List.filter_eq_nil_iff.mpr ?_
      intro r hr
      rw [hB] at hr
      obtain ⟨g', _, rfl⟩ := List.mem_map.mp hr
      simp [notAttendingRecord]
    rw [h1, h2, List.append_nil]
  refine ⟨mkResolvedGuest (attendRecord message g), ?_, rfl, ?_, ?_⟩
  · rw [hresolve, hfAB]
    exact List.mem_map.mpr ⟨attendRecord message g, hmemA, rfl⟩
  · exact fun e => mem_eventsOf_attendRecord message g e
  · exact dietary_of_attendRecord message g

/-- C2 witness: John submits attending with events `{wedding}`; the
next resolve reconstructs his name, event set and dietary note. -/
theorem attend_roundtrip_witness :
    ∃ entry ∈ (fetchExistingRsvp (.ok (queryRsvps
        (submitHandler johnGuest [johnMember] true [johnDraft] none ""
          true).created
        ([johnMember].map Member.id)))).guests,
      entry.name = johnDraft.firstName ++ " " ++ johnDraft.lastName
      ∧ (∀ e : String,
          e ∈ entry.events ↔
            (e ∈ ["welcome", "beach", "wedding"] ∧ e ∈ johnDraft.events))
      ∧ entry.dietary = johnDraft.dietary :=
  attend_roundtrip johnGuest [johnMember] [johnDraft] none "" (by decide)
    (by decide) johnDraft (by decide) (by decide) (by decide)

end ZahiAndSophie
